import Mathlib

/-!
Shallow embedding of the Pickup-Order-Auto-Reassign service.

The current server is `src/server.js`; `src/unnamed/part_000` contains
earlier full iterations of the same service (the first of which answers
500 from its top-level catch and 401 on a failed signature check).

Strings are embedded as lists of characters (`Str`); the JavaScript
`String.prototype.includes` is contiguous-substring search, embedded as
`jsIncludes` via `List.IsInfix`.
-/

/-- JavaScript strings, embedded as lists of characters. -/
abbrev Str := List Char

/-- JavaScript `s.toLowerCase()` (the order data here is ASCII). -/
def jsLower (s : Str) : Str := s.map Char.toLower

/-- JavaScript `s.includes(pat)`: `pat` occurs contiguously in `s`. -/
def jsIncludes (s pat : Str) : Bool := decide (pat <:+: s)

/-- JavaScript truthiness of an optional string value: `undefined`/`null`
and the empty string are falsy. -/
def jsTruthyStr : Option Str → Bool
  | none => false
  | some s => !s.isEmpty

/-- JavaScript truthiness of an optional numeric value: `undefined`/`null`
and `0` are falsy. -/
def jsTruthyNum : Option Nat → Bool
  | none => false
  | some n => n != 0

/-- JavaScript `(x || '')` applied to an optional string. -/
def orEmpty : Option Str → Str
  | none => []
  | some s => s

/-- One entry of the upstream payload field `shipping_lines`. -/
structure ShippingLine where
  code : Option Str
  title : Option Str
  source : Option Str
deriving DecidableEq

/-- The upstream (Shopify) order payload, restricted to the fields the
webhook handler reads. -/
structure ShopifyOrder where
  id : Option Nat
  order_number : Option Nat
  name : Option Str
  tags : Option Str
  shipping_lines : Option (List ShippingLine)
deriving DecidableEq

def pickupKw : Str := ("pickup").data
def pickupOrderKw : Str := ("pickup-order").data
def pickUpKw : Str := ("pick up").data
def localKw : Str := ("local").data
def genesisKw : Str := ("genesis impact sports").data

/-- Tag branch of `isPickupOrder` (src/server.js lines 66-74): when
`order.tags` is truthy, lower-case it and test for the substrings
`pickup-order` and `pickup`. -/
def tagBranch : Option Str → Bool
  | none => false
  | some t =>
      !t.isEmpty &&
        (jsIncludes (jsLower t) pickupOrderKw || jsIncludes (jsLower t) pickupKw)

/-- Per-shipping-line test of `isPickupOrder` (src/server.js lines 80-101):
coalesce missing `code`/`title` to the empty string, lower-case, then test
the pickup-location name and the generic keywords.  Note the asymmetry in
the source: `pick up` is tested only against the title, `local` only
against the code. -/
def linePickup (line : ShippingLine) : Bool :=
  let code := jsLower (orEmpty line.code)
  let title := jsLower (orEmpty line.title)
  (jsIncludes title genesisKw || jsIncludes code genesisKw) ||
    (jsIncludes code pickupKw || jsIncludes title pickupKw ||
      jsIncludes title pickUpKw || jsIncludes code localKw)

/-- Shipping-line branch of `isPickupOrder` (src/server.js lines 77-102):
guarded by presence and non-emptiness of `shipping_lines`; returns true at
the first matching line. -/
def lineBranch : Option (List ShippingLine) → Bool
  | none => false
  | some lines => decide (0 < lines.length) && lines.any linePickup

/-- `isPickupOrder` from src/server.js lines 62-106: the tag branch returns
true early, otherwise the shipping-line branch decides, otherwise false. -/
def isPickupOrder (o : ShopifyOrder) : Bool :=
  tagBranch o.tags || lineBranch o.shipping_lines

/-- A JSON scalar appearing in a response body or a GraphQL variable map. -/
inductive JVal where
  | str (s : Str)
  | num (n : Nat)
  | bool (b : Bool)
deriving DecidableEq

def kMessage : Str := ("message").data
def kError : Str := ("error").data
def kProcessed : Str := ("processed").data
def kNote : Str := ("note").data
def kSuccess : Str := ("success").data
def kOrderId : Str := ("orderId").data
def kOrderNumber : Str := ("orderNumber").data
def kShipmentsReassigned : Str := ("shipmentsReassigned").data
def kEndpoint : Str := ("endpoint").data

/-- Keys of the result record described by the specification
(ReassignmentResult); used to ask whether the response of the code
actually carries them. -/
def kMatched : Str := ("matched").data

def kShipmentsTotal : Str := ("shipmentsTotal").data

def kSkippedAlreadyCorrect : Str := ("skippedAlreadyCorrect").data

def msgIgnoredNotOrder : Str := ("Webhook ignored - not an order").data
def msgInvalidOrder : Str := ("Invalid order data").data
def msgNotPickup : Str := ("Not a pickup order").data
def msgEndpointNotFound : Str := ("SkuSavvy API endpoint not found").data
def msgNotSynced : Str := ("Order not synced to SkuSavvy yet").data
def noteSyncDelay : Str := ("Order may take a few minutes to sync from Shopify to SkuSavvy").data
def msgNoShipments : Str := ("No shipments to reassign").data
def msgWebhookIgnored : Str := ("Webhook ignored").data

/-- Message of the TypeError raised by `order.name.replace(...)` when the
payload has no `name` field (src/server.js line 160). -/
def typeErrReplaceMsg : Str := ("TypeError: cannot read replace of undefined").data

/-- JavaScript `s.replace(pat, rep)` with a string pattern: replace the
first occurrence only. -/
def replaceFirst : Str → Str → Str → Str
  | [], pat, rep => if pat.isEmpty then rep else []
  | c :: s, pat, rep =>
      if pat.isPrefixOf (c :: s) then rep ++ (c :: s).drop pat.length
      else c :: replaceFirst s pat rep

def hashAPAKw : Str := ("#APA").data
def hashKw : Str := ("#").data

/-- `order.name.replace('#APA','').replace('#','')` (src/server.js line 160):
the SkuSavvy lookup key derived from the display name. -/
def skuKey (name : Str) : Str := replaceFirst (replaceFirst name hashAPAKw []) hashKw []

/-- A GraphQL request: the assembled query text plus the bound variables
sent alongside it. -/
structure GqlRequest where
  queryText : Str
  boundVars : List (Str × JVal)
deriving DecidableEq

def varOrderIdKey : Str := ("orderId").data
def varShipmentIdKey : Str := ("shipmentId").data
def warehouseIdKey : Str := ("warehouseId").data

/-- Text of `GET_ORDER_QUERY` (src/server.js lines 37-48); no value is
interpolated into it. -/
def GET_ORDER_QUERY : Str :=
  ("\n  query GetOrder($orderId: String!) \x7b\n    order(orderId: $orderId) \x7b\n      id\n      shipments \x7b\n        id\n        warehouseId\n        status\n      \x7d\n    \x7d\n  \x7d\n").data

/-- The part of the `REASSIGN_MUTATION` template literal before the
interpolated `process.env.AMERICANA_WAREHOUSE_ID` (src/server.js lines 21-26). -/
def reassignTextPrefix : Str :=
  ("\n  mutation ReassignGenesisToAmericana($orderId: UUID!, $shipmentId: Int!) \x7b\n    shipmentReassignLocation(\n      orderId: $orderId,\n      shipmentId: $shipmentId,\n      warehouseId: \"").data

/-- The part of the `REASSIGN_MUTATION` template literal after the
interpolated warehouse id (src/server.js lines 26-34). -/
def reassignTextSuffix : Str :=
  ("\"\n    ) \x7b\n      shipments \x7b \n        id \n        warehouseId\n      \x7d\n    \x7d\n  \x7d\n").data

/-- `REASSIGN_MUTATION` (src/server.js lines 21-34): a template literal
evaluated once at module load, splicing the configured warehouse id into
the query text. -/
def REASSIGN_MUTATION (americanaWarehouseId : Str) : Str :=
  reassignTextPrefix ++ americanaWarehouseId ++ reassignTextSuffix

/-- The request issued for one shipment reassignment (src/server.js lines
240-243): the spliced mutation text, with `orderId` and `shipmentId` as the
only bound variables. -/
def reassignRequest (americanaWarehouseId dsOrderId : Str) (shipmentId : Nat) : GqlRequest :=
  { queryText := REASSIGN_MUTATION americanaWarehouseId,
    boundVars := [(varOrderIdKey, JVal.str dsOrderId), (varShipmentIdKey, JVal.num shipmentId)] }

/-- The request issued for the order lookup (src/server.js lines 174-176). -/
def getOrderRequest (skuSavvyOrderId : Str) : GqlRequest :=
  { queryText := GET_ORDER_QUERY,
    boundVars := [(varOrderIdKey, JVal.str skuSavvyOrderId)] }

/-- Observable outward actions of one webhook invocation, in order. -/
inductive Effect where
  | wait (ms : Nat)
  | gqlQuery (req : GqlRequest)
  | gqlMutate (req : GqlRequest)
deriving DecidableEq

def Effect.isMutate : Effect → Bool
  | .gqlMutate _ => true
  | _ => false

/-- A shipment as returned by the SkuSavvy order query.  Downstream
shipment ids are numeric (the handler applies `parseInt` before use), so
they are embedded as naturals. -/
structure ShipmentD where
  id : Nat
  warehouseId : Option Str
  status : Option Str
deriving DecidableEq

/-- `orderData.order` as returned by the SkuSavvy order query; `shipments`
may be absent (the handler guards it with optional chaining). -/
structure DownstreamOrder where
  id : Str
  shipments : Option (List ShipmentD)
deriving DecidableEq

/-- An error thrown by the GraphQL client: its message text and whether its
`code` is ENOTFOUND (src/server.js lines 181-211 branch on these). -/
structure GqlError where
  message : Str
  codeENOTFOUND : Bool
deriving DecidableEq

/-- Outcome of the SkuSavvy order query for this invocation. -/
inductive QueryOutcome where
  | ok (order : Option DownstreamOrder)
  | err (e : GqlError)
deriving DecidableEq

/-- The deployment environment entries relevant to the handler.
`process.env` is an open string map; the handler reads only the warehouse
id and the endpoint.  `gracePeriodMs` stands for a grace-period entry of
the configuration surface: it is carried here so that theorems can ask
whether the wait duration depends on it (the handler never reads it — the
10-second wait is a hard-coded literal). -/
structure Env where
  americanaWarehouseId : Str
  skuSavvyEndpoint : Str
  gracePeriodMs : Option Nat
deriving DecidableEq

/-- Behaviour of the downstream system during this invocation: the outcome
of the order query, and, for each shipment id, whether the reassignment
mutation for that shipment succeeds. -/
structure Downstream where
  queryOutcome : QueryOutcome
  mutationOk : Nat → Bool

/-- The inbound webhook delivery: the topic header and the result of
`JSON.parse` on the raw body (`Except.error m` embeds a parse exception
with message `m`). -/
structure WebhookRequest where
  topic : Option Str
  body : Except Str ShopifyOrder

structure HttpResponse where
  status : Nat
  body : List (Str × JVal)
deriving DecidableEq

def kwNotFound : Str := ("not found").data
def kwNull : Str := ("null").data

def respIgnoredNotOrder : HttpResponse :=
  ⟨200, [(kMessage, .str msgIgnoredNotOrder)]⟩

def respInvalidOrder : HttpResponse :=
  ⟨200, [(kMessage, .str msgInvalidOrder)]⟩

def respNotPickup : HttpResponse :=
  ⟨200, [(kMessage, .str msgNotPickup), (kProcessed, .bool false)]⟩

/-- Response of the top-level catch (src/server.js lines 265-274): still
HTTP 200, body reports the error message and `processed: false`. -/
def respCaught (m : Str) : HttpResponse :=
  ⟨200, [(kError, .str m), (kProcessed, .bool false)]⟩

def respEndpointNotFound (env : Env) : HttpResponse :=
  ⟨200, [(kError, .str msgEndpointNotFound), (kEndpoint, .str env.skuSavvyEndpoint),
         (kProcessed, .bool false)]⟩

def respNotSynced : HttpResponse :=
  ⟨200, [(kMessage, .str msgNotSynced), (kProcessed, .bool false),
         (kNote, .str noteSyncDelay)]⟩

def respNoShipments : HttpResponse :=
  ⟨200, [(kMessage, .str msgNoShipments), (kProcessed, .bool false)]⟩

def respSuccess (o : ShopifyOrder) (reassignedCount : Nat) : HttpResponse :=
  ⟨200, [(kSuccess, .bool true), (kOrderId, .num (o.id.getD 0)),
         (kOrderNumber, .num (o.order_number.getD 0)),
         (kShipmentsReassigned, .num reassignedCount)]⟩

/-- The per-shipment loop (src/server.js lines 227-254): skip a shipment
already at the Americana warehouse, otherwise issue the reassignment
mutation; a failed call is caught and only skips the increment of
`reassignedCount`.  Returns the final count together with the mutation
effects issued, in order. -/
def shipmentLoop (amer dsOrderId : Str) (mutOk : Nat → Bool) :
    List ShipmentD → Nat × List Effect
  | [] => (0, [])
  | sh :: rest =>
    if sh.warehouseId == some amer then shipmentLoop amer dsOrderId mutOk rest
    else
      let r := shipmentLoop amer dsOrderId mutOk rest
      ((if mutOk sh.id then 1 else 0) + r.1,
        Effect.gqlMutate (reassignRequest amer dsOrderId sh.id) :: r.2)

/-- The webhook handler `app.post('/webhooks/orders/create')` of
src/server.js lines 111-275, as a function from the delivery, the
environment and the downstream behaviour to the HTTP response and the
ordered trace of outward effects. -/
def handleOrdersCreate (env : Env) (req : WebhookRequest) (ds : Downstream) :
    HttpResponse × List Effect :=
  if req.topic != some (("orders/create").data) then (respIgnoredNotOrder, [])
  else
    match req.body with
    | .error m => (respCaught m, [])
    | .ok order =>
      if !jsTruthyNum order.order_number || !jsTruthyNum order.id then
        (respInvalidOrder, [])
      else if !isPickupOrder order then (respNotPickup, [])
      else
        match order.name with
        | none =>
            -- order.name.replace throws; the top-level catch answers
            (respCaught typeErrReplaceMsg, [])
        | some nm =>
          let pre : List Effect :=
            [Effect.wait 10000, Effect.gqlQuery (getOrderRequest (skuKey nm))]
          match ds.queryOutcome with
          | .err e =>
            if e.codeENOTFOUND then (respEndpointNotFound env, pre)
            else if jsIncludes e.message kwNotFound || jsIncludes e.message kwNull then
              (respNotSynced, pre)
            else
              -- rethrown, then caught by the top-level catch
              (respCaught e.message, pre)
          | .ok odOpt =>
            match odOpt with
            | none => (respNoShipments, pre)
            | some od =>
              match od.shipments with
              | none => (respNoShipments, pre)
              | some l =>
                if l.length = 0 then (respNoShipments, pre)
                else
                  let r := shipmentLoop env.americanaWarehouseId od.id ds.mutationOk l
                  (respSuccess order r.1, pre ++ r.2)

/-- The catch-all webhook route (src/server.js lines 280-284). -/
def handleCatchAllWebhook (_topic : Option Str) : HttpResponse :=
  ⟨200, [(kMessage, .str msgWebhookIgnored)]⟩

/-- Per-line pickup test of the first historical variant
(src/unnamed/part_000 lines 54-58): optional chaining makes a missing
`code`/`title` contribute false; a line with `source === 'shopify'` also
counts. -/
def variantLinePickup (line : ShippingLine) : Bool :=
  (match line.code with
   | some c => jsIncludes (jsLower c) pickupKw
   | none => false) ||
  (match line.title with
   | some t => jsIncludes (jsLower t) pickupKw
   | none => false) ||
  (line.source == some (("shopify").data))

/-- `isPickupOrder` of the first historical variant
(src/unnamed/part_000 lines 54-58). -/
def variantIsPickupOrder (o : ShopifyOrder) : Bool :=
  match o.shipping_lines with
  | some lines => lines.any variantLinePickup
  | none => false

/-- The inbound delivery as seen by the first historical variant, which
actually verifies the HMAC signature (src/unnamed/part_000 lines 43-46):
`sigValid` is the outcome of that comparison. -/
structure VariantRequest where
  sigValid : Bool
  body : Except Str ShopifyOrder

def msgUnauthorized : Str := ("Unauthorized").data

/-- Message carried by the error a failed reassignment mutation throws in
the variant (no per-shipment try/catch there). -/
def variantMutationErrMsg : Str := ("reassignment mutation failed").data

/-- Message of the TypeError raised by `orderData.order.shipments.length`
when `shipments` is absent (no optional chaining in the variant,
src/unnamed/part_000 line 88). -/
def typeErrLengthMsg : Str := ("TypeError: cannot read length of undefined").data

/-- The webhook handler of the first historical variant
(src/unnamed/part_000 lines 38-114), reduced to the HTTP response it
produces: 401 on a failed signature check; 500 from the top-level catch on
a parse error, a missing `name`, a query error, a missing `shipments`
array, or any failed reassignment mutation (its loop has no per-shipment
try/catch, so the first failure aborts the loop and reaches the catch). -/
def variantHandleOrdersCreate (amer : Str) (req : VariantRequest) (ds : Downstream) :
    HttpResponse :=
  if !req.sigValid then ⟨401, [(kMessage, .str msgUnauthorized)]⟩
  else
    match req.body with
    | .error m => ⟨500, [(kError, .str m)]⟩
    | .ok order =>
      if !variantIsPickupOrder order then ⟨200, [(kMessage, .str msgNotPickup)]⟩
      else
        match order.name with
        | none => ⟨500, [(kError, .str typeErrReplaceMsg)]⟩
        | some _nm =>
          match ds.queryOutcome with
          | .err e => ⟨500, [(kError, .str e.message)]⟩
          | .ok none => ⟨200, [(kMessage, .str msgNoShipments)]⟩
          | .ok (some od) =>
            match od.shipments with
            | none => ⟨500, [(kError, .str typeErrLengthMsg)]⟩
            | some l =>
              if l.length = 0 then ⟨200, [(kMessage, .str msgNoShipments)]⟩
              else if l.all (fun sh => (sh.warehouseId == some amer) || ds.mutationOk sh.id) then
                ⟨200, [(kSuccess, .bool true)]⟩
              else ⟨500, [(kError, .str variantMutationErrMsg)]⟩

/-- An exception inside the embedded JavaScript evaluation. -/
inductive JsErr where
  | typeError (msg : Str)
deriving DecidableEq

/-- `x.toLowerCase()` on an optional string, with the TypeError a nullish
receiver would raise made explicit. -/
def jsToLowerE : Option Str → Except JsErr Str
  | some s => .ok (jsLower s)
  | none => .error (.typeError (("toLowerCase of undefined").data))

/-- `isPickupOrder` with every potentially-throwing step made explicit.
The only unguarded method call on a possibly-nullish receiver in the
source is `order.tags.toLowerCase()`, and it sits behind the
`if (order.tags)` truthiness guard; `(line.code || '')` and
`(line.title || '')` coalesce before their `toLowerCase()`, so the
shipping-line branch cannot throw on the modelled data. -/
def isPickupOrderE (o : ShopifyOrder) : Except JsErr Bool :=
  if jsTruthyStr o.tags then
    match jsToLowerE o.tags with
    | .error e => .error e
    | .ok tags =>
      if jsIncludes tags pickupOrderKw || jsIncludes tags pickupKw then .ok true
      else .ok (lineBranch o.shipping_lines)
  else .ok (lineBranch o.shipping_lines)

/-- The tag branch as the claim C10 simplifies it: testing only the
substring `pickup`. -/
def tagBranchPickupOnly : Option Str → Bool
  | none => false
  | some t => !t.isEmpty && jsIncludes (jsLower t) pickupKw

/-- Per-line condition as claim C2 words it: lower-cased `code` or `title`
contains `pickup`, `pick up`, or `local`, or matches the pickup-location
name. -/
def lineClaimC2 (line : ShippingLine) : Bool :=
  let code := jsLower (orEmpty line.code)
  let title := jsLower (orEmpty line.title)
  jsIncludes code pickupKw || jsIncludes code pickUpKw || jsIncludes code localKw ||
    jsIncludes code genesisKw || jsIncludes title pickupKw || jsIncludes title pickUpKw ||
    jsIncludes title localKw || jsIncludes title genesisKw

/-- Claim C2 as stated, lifted to the order: some shipping line satisfies
`lineClaimC2`. -/
def specC2Claim (o : ShopifyOrder) : Bool :=
  match o.shipping_lines with
  | some lines => lines.any lineClaimC2
  | none => false

/-- Per-line condition of the amended claim C2, matching the asymmetry of
the source: `pick up` only against the title, `local` only against the
code. -/
def lineAmendedC2 (line : ShippingLine) : Bool :=
  let code := jsLower (orEmpty line.code)
  let title := jsLower (orEmpty line.title)
  jsIncludes code pickupKw || jsIncludes code localKw || jsIncludes code genesisKw ||
    jsIncludes title pickupKw || jsIncludes title pickUpKw || jsIncludes title genesisKw

/-- The amended claim C2 lifted to the order. -/
def specC2Amended (o : ShopifyOrder) : Bool :=
  match o.shipping_lines with
  | some lines => lines.any lineAmendedC2
  | none => false

/-- `shipment.warehouseId === process.env.AMERICANA_WAREHOUSE_ID`
(src/server.js line 232). -/
def atAmericana (amer : Str) (sh : ShipmentD) : Bool := sh.warehouseId == some amer

/-- A shipment the loop does not skip. -/
def needsReassign (amer : Str) (sh : ShipmentD) : Bool := !(sh.warehouseId == some amer)

/-- The mutation effect the loop issues for one shipment. -/
def mutEffect (amer dsOrderId : Str) (sh : ShipmentD) : Effect :=
  Effect.gqlMutate (reassignRequest amer dsOrderId sh.id)

def topicOrdersCreate : Str := ("orders/create").data

/-- A concrete deployment environment used by the concrete-input theorems. -/
def envC : Env :=
  ⟨("americana-wh-1").data, ("https://api.skusavvy.example/graphql").data, none⟩

/-- Concrete order for the C2 counterexample: no tags, one line whose title
contains `local` (and nothing else matching). -/
def orderC2 : ShopifyOrder :=
  ⟨some 1, some 1, none, none, some [⟨some [], some (("Local delivery").data), none⟩]⟩

/-- Concrete order for the C2 counterexample: no tags, one line whose code
contains `pick up` (with the space). -/
def orderC2b : ShopifyOrder :=
  ⟨some 1, some 1, none, none, some [⟨some (("pick up").data), some [], none⟩]⟩

/-- Concrete order used by the C2 witness: a non-pickup tag plus a line
whose title contains `pickup`. -/
def orderC2w : ShopifyOrder :=
  ⟨some 1, some 1, none, some (("rush").data),
    some [⟨none, some (("Store Pickup").data), none⟩]⟩

/-- Concrete pickup order used by several concrete-input theorems. -/
def orderPickup : ShopifyOrder :=
  ⟨some 1, some 2, some (("#APA100").data), some (("pickup").data), none⟩

def reqPickup : WebhookRequest := ⟨some topicOrdersCreate, .ok orderPickup⟩

/-- Downstream behaviour for the C4 concrete input: the query throws an
error whose message contains `not found`. -/
def dsC4 : Downstream := ⟨.err ⟨("order not found").data, false⟩, fun _ => true⟩

/-- Concrete downstream shipments for the C1 concrete inputs: one already
at the Americana warehouse, one at Genesis. -/
def shipsC1 : List ShipmentD :=
  [⟨7, some (("americana-wh-1").data), some (("pending").data)⟩,
   ⟨8, some (("genesis-wh-1").data), some (("pending").data)⟩]

/-- Concrete downstream shipments for the C3 witness: both need
reassignment. -/
def shipsC3 : List ShipmentD :=
  [⟨7, some (("genesis-wh-1").data), some (("pending").data)⟩,
   ⟨8, some (("genesis-wh-1").data), some (("pending").data)⟩]

/-- Downstream behaviour for the C1 concrete input: two shipments, one
already at the Americana warehouse, and every mutation succeeds. -/
def dsC1 : Downstream :=
  ⟨.ok (some ⟨("ds-uuid-1").data, some shipsC1⟩), fun _ => true⟩

/-- Downstream behaviour for the C3 witness: two shipments needing
reassignment, of which the mutation for shipment 8 fails. -/
def dsC3 : Downstream :=
  ⟨.ok (some ⟨("ds-uuid-1").data, some shipsC3⟩), fun i => i != 8⟩

/-- Concrete order for the C6 failing input: `order_number` and `id`
present, pickup tag present, but no `name` field. -/
def orderC6 : ShopifyOrder := ⟨some 5, some 6, none, some (("pickup").data), none⟩

def reqC6 : WebhookRequest := ⟨some topicOrdersCreate, .ok orderC6⟩

def dsIdle : Downstream := ⟨.ok none, fun _ => true⟩

/-- Concrete environment for the C9 counterexample: the configuration
surface carries a 5-second grace period. -/
def envC9 : Env := ⟨("americana-wh-1").data, ("endpoint").data, some 5000⟩

/-- Concrete variant delivery for the C5 counterexample: valid signature,
body that fails `JSON.parse`. -/
def reqC5variant : VariantRequest :=
  ⟨true, .error (("Unexpected token in JSON").data)⟩

theorem includes_of_includes_pickupOrder {s : Str}
    (h : jsIncludes s pickupOrderKw = true) : jsIncludes s pickupKw = true := by
  simp only [jsIncludes, decide_eq_true_eq] at h ⊢
  exact List.IsInfix.trans (by decide) h

theorem bool_or_shuffle : ∀ a b c d e f : Bool,
    ((a || b) || (c || d || e || f)) = (c || f || b || d || e || a) := by decide

theorem linePickup_eq_lineAmendedC2 (line : ShippingLine) :
    linePickup line = lineAmendedC2 line := by
  simp only [linePickup, lineAmendedC2]
  exact bool_or_shuffle _ _ _ _ _ _

theorem any_linePickup_eq (lines : List ShippingLine) :
    lines.any linePickup = lines.any lineAmendedC2 := by
  induction lines with
  | nil => rfl
  | cons x xs ih => simp [List.any_cons, linePickup_eq_lineAmendedC2, ih]

/-- C10: the tag branch of `isPickupOrder`, which tests for both the
`pickup-order` and `pickup` substrings, is extensionally equal to the
branch testing only for `pickup`: every string containing `pickup-order`
also contains `pickup`. -/
theorem c10_tag_branch_pickup_only :
    ∀ tags : Option Str, tagBranch tags = tagBranchPickupOnly tags := by
  intro tags
  cases tags with
  | none => rfl
  | some t =>
    simp only [tagBranch, tagBranchPickupOnly]
    cases h : jsIncludes (jsLower t) pickupOrderKw
    · simp [h]
    · simp [h, includes_of_includes_pickupOrder h]

/-- C2 counterexample: the claim as stated classifies as pickup an
untagged order whose shipping-line title contains `local`, and likewise
one whose code contains `pick up`; `isPickupOrder` classifies neither as
pickup (the source tests `local` only against the code and `pick up` only
against the title). -/
theorem c2_local_title_not_pickup :
    specC2Claim orderC2 = true ∧ isPickupOrder orderC2 = false ∧
      specC2Claim orderC2b = true ∧ isPickupOrder orderC2b = false := by decide

/-- C2 amended: for every order with no pickup tag, `isPickupOrder`
returns pickup iff some shipping line has a lower-cased code containing
`pickup`, `local`, or the pickup-location name, or a lower-cased title
containing `pickup`, `pick up`, or the pickup-location name (`local` is
tested only against the code, `pick up` only against the title). -/
theorem c2_shipping_line_classification_amended (o : ShopifyOrder)
    (h : ∀ t, o.tags = some t → ¬ pickupKw <:+: jsLower t) :
    isPickupOrder o = specC2Amended o := by
  have htag : tagBranch o.tags = false := by
    cases ht : o.tags with
    | none => rfl
    | some t =>
      have h1 : jsIncludes (jsLower t) pickupKw = false := by
        simpa [jsIncludes] using h t ht
      have h2 : jsIncludes (jsLower t) pickupOrderKw = false := by
        cases h2 : jsIncludes (jsLower t) pickupOrderKw
        · rfl
        · exact absurd (includes_of_includes_pickupOrder h2) (by simp [h1])
      simp [tagBranch, h1, h2]
  rw [isPickupOrder, htag, Bool.false_or]
  cases hl : o.shipping_lines with
  | none => simp [lineBranch, specC2Amended, hl]
  | some lines =>
    cases lines with
    | nil => simp [lineBranch, specC2Amended, hl]
    | cons x xs =>
      simp [lineBranch, specC2Amended, hl, linePickup_eq_lineAmendedC2, any_linePickup_eq]

theorem c2_shipping_line_classification_amended_witness :
    isPickupOrder orderC2w = specC2Amended orderC2w :=
  c2_shipping_line_classification_amended orderC2w
    (by intro t ht; cases ht; decide)

/-- C8: the classifier is total — with every potentially-throwing step of
the source made explicit, evaluation never raises and returns exactly the
boolean `isPickupOrder` computes; missing `tags`/`shipping_lines` behave
as empty ones. -/
theorem c8_classifier_total :
    (∀ o : ShopifyOrder, isPickupOrderE o = Except.ok (isPickupOrder o)) ∧
      ∀ i n nm, isPickupOrder ⟨i, n, nm, none, none⟩
        = isPickupOrder ⟨i, n, nm, some [], some []⟩ := by
  constructor
  · intro o
    cases ht : o.tags with
    | none =>
      simp [isPickupOrderE, jsTruthyStr, ht, isPickupOrder, tagBranch]
    | some t =>
      by_cases he : t.isEmpty
      · simp [isPickupOrderE, jsTruthyStr, ht, he, isPickupOrder, tagBranch]
      · cases hi : jsIncludes (jsLower t) pickupOrderKw || jsIncludes (jsLower t) pickupKw
        · simp [isPickupOrderE, jsTruthyStr, ht, he, jsToLowerE, hi, isPickupOrder, tagBranch]
        · simp [isPickupOrderE, jsTruthyStr, ht, he, jsToLowerE, hi, isPickupOrder, tagBranch]
  · intro i n nm
    rfl

/-- C7 counterexample: the configured warehouse id appears spliced into
the text of the reassignment query (it is interpolated into the
`REASSIGN_MUTATION` template literal), and no `warehouseId` bound
variable is sent — refuting the claim that the value never appears in the
query text. -/
theorem c7_warehouse_spliced_into_query :
    jsIncludes (reassignRequest (("americana-wh-1").data) (("ds-uuid-1").data) 7).queryText
        (("americana-wh-1").data) = true ∧
      (reassignRequest (("americana-wh-1").data) (("ds-uuid-1").data) 7).boundVars.lookup
        warehouseIdKey = none := by
  constructor
  · simp only [jsIncludes, decide_eq_true_eq, reassignRequest, REASSIGN_MUTATION]
    exact ⟨reassignTextPrefix, reassignTextSuffix, rfl⟩
  · rfl

/-- C7 amended: in every reassignment request, `orderId` and `shipmentId`
are the only bound variables, while the configured warehouse id is spliced
into the query text (once, when the module-level template literal is
built). -/
theorem c7_bound_variables_amended :
    ∀ (amer dsOrderId : Str) (shId : Nat),
      (reassignRequest amer dsOrderId shId).queryText
          = reassignTextPrefix ++ amer ++ reassignTextSuffix ∧
        amer <:+: (reassignRequest amer dsOrderId shId).queryText ∧
        (reassignRequest amer dsOrderId shId).boundVars.map Prod.fst
          = [varOrderIdKey, varShipmentIdKey] := by
  intro amer dsOrderId shId
  refine ⟨rfl, ⟨reassignTextPrefix, reassignTextSuffix, rfl⟩, rfl⟩

theorem countP_not_eq_sub (p : ShipmentD → Bool) (l : List ShipmentD) :
    l.countP (fun sh => !p sh) = l.length - l.countP p := by
  induction l with
  | nil => rfl
  | cons a l ih =>
    have hle := List.countP_le_length p (l := l)
    cases h : p a <;> simp [List.countP_cons, h, ih] <;> omega

theorem filter_needs_length (amer : Str) (l : List ShipmentD) :
    (l.filter (needsReassign amer)).length
      = l.length - l.countP (atAmericana amer) := by
  rw [← List.countP_eq_length_filter]
  exact countP_not_eq_sub (atAmericana amer) l

theorem shipmentLoop_eq (amer dsOrderId : Str) (mutOk : Nat → Bool) (l : List ShipmentD) :
    shipmentLoop amer dsOrderId mutOk l =
      ((l.filter (needsReassign amer)).countP (fun sh => mutOk sh.id),
        (l.filter (needsReassign amer)).map (mutEffect amer dsOrderId)) := by
  induction l with
  | nil => rfl
  | cons sh rest ih =>
    cases h : sh.warehouseId == some amer with
    | true => simp [shipmentLoop, h, List.filter_cons, needsReassign, ih]
    | false =>
      simp [shipmentLoop, h, List.filter_cons, needsReassign, ih,
        List.countP_cons, mutEffect]
      cases hm : mutOk sh.id <;> simp [hm] <;> omega

theorem handle_success_path (env : Env) (oid onum : Nat) (nm : Str)
    (tags : Option Str) (sl : Option (List ShippingLine))
    (h1 : jsTruthyNum (some oid) = true) (h2 : jsTruthyNum (some onum) = true)
    (hpick : isPickupOrder ⟨some oid, some onum, some nm, tags, sl⟩ = true)
    (dsId : Str) (l : List ShipmentD) (hne : l ≠ []) (mutOk : Nat → Bool) :
    handleOrdersCreate env
        ⟨some topicOrdersCreate, .ok ⟨some oid, some onum, some nm, tags, sl⟩⟩
        ⟨QueryOutcome.ok (some ⟨dsId, some l⟩), mutOk⟩ =
      (respSuccess ⟨some oid, some onum, some nm, tags, sl⟩
          ((l.filter (needsReassign env.americanaWarehouseId)).countP (fun sh => mutOk sh.id)),
        Effect.wait 10000 :: Effect.gqlQuery (getOrderRequest (skuKey nm)) ::
          (l.filter (needsReassign env.americanaWarehouseId)).map
            (mutEffect env.americanaWarehouseId dsId)) := by
  have hlen : ¬ l.length = 0 := by simpa [List.length_eq_zero] using hne
  simp [handleOrdersCreate, topicOrdersCreate, h1, h2, hpick, hlen, shipmentLoop_eq]

theorem lookup_respSuccess_skipped (o : ShopifyOrder) (c : Nat) :
    (respSuccess o c).body.lookup kSkippedAlreadyCorrect = none := by
  have e1 : (kSkippedAlreadyCorrect == kSuccess) = false := by decide
  have e2 : (kSkippedAlreadyCorrect == kOrderId) = false := by decide
  have e3 : (kSkippedAlreadyCorrect == kOrderNumber) = false := by decide
  have e4 : (kSkippedAlreadyCorrect == kShipmentsReassigned) = false := by decide
  simp [respSuccess, List.lookup, e1, e2, e3, e4]

theorem lookup_respSuccess_reassigned (o : ShopifyOrder) (c : Nat) :
    (respSuccess o c).body.lookup kShipmentsReassigned = some (JVal.num c) := by
  have e1 : (kShipmentsReassigned == kSuccess) = false := by decide
  have e2 : (kShipmentsReassigned == kOrderId) = false := by decide
  have e3 : (kShipmentsReassigned == kOrderNumber) = false := by decide
  have e4 : (kShipmentsReassigned == kShipmentsReassigned) = true := by decide
  simp [respSuccess, List.lookup, e1, e2, e3, e4]

/-- C1 (amended): for a downstream order whose shipments `l` have `M`
entries already at the Americana warehouse, with every issued call
succeeding, the handler skips exactly those `M` shipments, issues exactly
`N - M` reassignment calls (one per remaining shipment, in order), and
reports `shipmentsReassigned = N - M`; no `skippedAlreadyCorrect` field is
reported at all. -/
theorem c1_reassign_counts_amended (env : Env) (oid onum : Nat) (nm : Str)
    (tags : Option Str) (sl : Option (List ShippingLine))
    (h1 : jsTruthyNum (some oid) = true) (h2 : jsTruthyNum (some onum) = true)
    (hpick : isPickupOrder ⟨some oid, some onum, some nm, tags, sl⟩ = true)
    (dsId : Str) (l : List ShipmentD) (hne : l ≠ []) :
    handleOrdersCreate env
        ⟨some topicOrdersCreate, .ok ⟨some oid, some onum, some nm, tags, sl⟩⟩
        ⟨QueryOutcome.ok (some ⟨dsId, some l⟩), fun _ => true⟩ =
      (respSuccess ⟨some oid, some onum, some nm, tags, sl⟩
          (l.length - l.countP (atAmericana env.americanaWarehouseId)),
        Effect.wait 10000 :: Effect.gqlQuery (getOrderRequest (skuKey nm)) ::
          (l.filter (needsReassign env.americanaWarehouseId)).map
            (mutEffect env.americanaWarehouseId dsId)) ∧
      (l.filter (needsReassign env.americanaWarehouseId)).length
          = l.length - l.countP (atAmericana env.americanaWarehouseId) ∧
      (respSuccess ⟨some oid, some onum, some nm, tags, sl⟩
          (l.length - l.countP (atAmericana env.americanaWarehouseId))).body.lookup
          kSkippedAlreadyCorrect = none := by
  refine ⟨?_, filter_needs_length _ _, lookup_respSuccess_skipped _ _⟩
  have hsp := handle_success_path env oid onum nm tags sl h1 h2 hpick dsId l hne
    (fun _ => true)
  have hc : (l.filter (needsReassign env.americanaWarehouseId)).countP
        (fun sh => (fun _ : Nat => true) sh.id)
      = l.length - l.countP (atAmericana env.americanaWarehouseId) :=
    (congrFun List.countP_true _).trans (filter_needs_length env.americanaWarehouseId l)
  rw [hsp, hc]

/-- C3: with a pickup order and a downstream order whose shipments need
reassignment, if at least one reassignment call fails the remaining ones
are still attempted (the trace carries one mutation per shipment needing
reassignment, in order), and the reported `shipmentsReassigned` is exactly
the number of calls that succeeded. -/
theorem c3_partial_failure_continues (env : Env) (oid onum : Nat) (nm : Str)
    (tags : Option Str) (sl : Option (List ShippingLine))
    (h1 : jsTruthyNum (some oid) = true) (h2 : jsTruthyNum (some onum) = true)
    (hpick : isPickupOrder ⟨some oid, some onum, some nm, tags, sl⟩ = true)
    (dsId : Str) (l : List ShipmentD) (hne : l ≠ []) (mutOk : Nat → Bool)
    (hfail : ∃ sh ∈ l.filter (needsReassign env.americanaWarehouseId),
        mutOk sh.id = false) :
    handleOrdersCreate env
        ⟨some topicOrdersCreate, .ok ⟨some oid, some onum, some nm, tags, sl⟩⟩
        ⟨QueryOutcome.ok (some ⟨dsId, some l⟩), mutOk⟩ =
      (respSuccess ⟨some oid, some onum, some nm, tags, sl⟩
          ((l.filter (needsReassign env.americanaWarehouseId)).countP
            (fun sh => mutOk sh.id)),
        Effect.wait 10000 :: Effect.gqlQuery (getOrderRequest (skuKey nm)) ::
          (l.filter (needsReassign env.americanaWarehouseId)).map
            (mutEffect env.americanaWarehouseId dsId)) ∧
      (respSuccess ⟨some oid, some onum, some nm, tags, sl⟩
          ((l.filter (needsReassign env.americanaWarehouseId)).countP
            (fun sh => mutOk sh.id))).body.lookup kShipmentsReassigned
        = some (JVal.num ((l.filter (needsReassign env.americanaWarehouseId)).countP
            (fun sh => mutOk sh.id))) :=
  ⟨handle_success_path env oid onum nm tags sl h1 h2 hpick dsId l hne mutOk,
    lookup_respSuccess_reassigned _ _⟩

/-- C4 (amended): when the order lookup throws an error marking not-found
(message contains `not found` or `null`, code not ENOTFOUND) for a valid
pickup order, the handler answers 200 with the not-synced body
(`processed: false` plus a sync note — no `matched` or `shipmentsTotal`
field), issues zero mutation calls, and the invocation is terminal: the
trace is exactly the single wait and the single query, nothing after. -/
theorem c4_not_synced_amended (env : Env) (oid onum : Nat) (nm : Str)
    (tags : Option Str) (sl : Option (List ShippingLine))
    (h1 : jsTruthyNum (some oid) = true) (h2 : jsTruthyNum (some onum) = true)
    (hpick : isPickupOrder ⟨some oid, some onum, some nm, tags, sl⟩ = true)
    (e : GqlError) (henf : e.codeENOTFOUND = false)
    (hmsg : (jsIncludes e.message kwNotFound || jsIncludes e.message kwNull) = true)
    (mutOk : Nat → Bool) :
    handleOrdersCreate env
        ⟨some topicOrdersCreate, .ok ⟨some oid, some onum, some nm, tags, sl⟩⟩
        ⟨QueryOutcome.err e, mutOk⟩ =
      (respNotSynced, [Effect.wait 10000, Effect.gqlQuery (getOrderRequest (skuKey nm))]) := by
  simp [handleOrdersCreate, topicOrdersCreate, h1, h2, hpick, henf, hmsg]

theorem c4_not_synced_amended_witness :
    handleOrdersCreate envC
        ⟨some topicOrdersCreate,
          .ok ⟨some 1, some 2, some (("#APA100").data), some (("pickup").data), none⟩⟩
        ⟨QueryOutcome.err ⟨("order not found").data, false⟩, fun _ => true⟩ =
      (respNotSynced,
        [Effect.wait 10000, Effect.gqlQuery (getOrderRequest (skuKey (("#APA100").data)))]) :=
  c4_not_synced_amended envC 1 2 (("#APA100").data) (some (("pickup").data)) none
    (by decide) (by decide) (by decide) ⟨("order not found").data, false⟩
    (by decide) (by decide) (fun _ => true)

/-- C4 counterexample: at a concrete not-found lookup for a pickup order,
the response of the code carries no `matched` and no `shipmentsTotal`
field (the claim says it reports `matched: true` and `shipmentsTotal: 0`),
though indeed zero mutation calls are issued. -/
theorem c4_matched_fields_not_reported :
    (handleOrdersCreate envC reqPickup dsC4).1.body.lookup kMatched = none ∧
      (handleOrdersCreate envC reqPickup dsC4).1.body.lookup kShipmentsTotal = none ∧
      (handleOrdersCreate envC reqPickup dsC4).2.countP Effect.isMutate = 0 := by decide

/-- C6 (code bug): a payload that passes the validation (`order_number`
and `id` present) and classifies as pickup but lacks the `name` field
makes `order.name.replace` throw; the top-level catch answers with an
`error` field in the body — not the neutral no-error response the spec
prescribes for payloads missing required identifying fields — though no
downstream call is made. -/
theorem c6_missing_name_error_response :
    (handleOrdersCreate envC reqC6 dsIdle).1.body.lookup kError
        = some (JVal.str typeErrReplaceMsg) ∧
      (handleOrdersCreate envC reqC6 dsIdle).2 = [] := by decide

/-- C5 (amended): the current server (src/server.js) answers HTTP 200 on
every path of the orders/create handler — wrong topic, parse failure,
invalid payload, non-pickup, endpoint not found, not synced, rethrown
query error, no shipments, success, partial failure — and the catch-all
webhook route also answers 200. -/
theorem c5_server_always_200 :
    (∀ (env : Env) (req : WebhookRequest) (ds : Downstream),
        (handleOrdersCreate env req ds).1.status = 200) ∧
      ∀ t, (handleCatchAllWebhook t).status = 200 := by
  refine ⟨?_, fun t => rfl⟩
  intro env req ds
  obtain ⟨topic, body⟩ := req
  obtain ⟨q, mutOk⟩ := ds
  unfold handleOrdersCreate
  repeat' split
  all_goals rfl

/-- C5 counterexample: an earlier full iteration of the service kept in
the repository (src/unnamed/part_000, first variant) answers HTTP 500
from its top-level catch when processing fails — here, on a body that
fails `JSON.parse` — so the repository does contain a handler returning a
non-200 status for a processing failure. -/
theorem c5_variant_returns_500 :
    (variantHandleOrdersCreate (("americana-wh-1").data) reqC5variant dsIdle).status = 500 ∧
      (variantHandleOrdersCreate (("americana-wh-1").data) reqC5variant dsIdle).status ≠ 200 := by
  decide

/-- C9 (amended): for every valid pickup order, the handler suspends
exactly once — the hard-coded 10000 ms wait — after classification and
before the single downstream query, and every effect after that query is
a reassignment mutation: no second wait, no repeated query, no backoff. -/
theorem c9_single_wait_before_query (env : Env) (oid onum : Nat) (nm : Str)
    (tags : Option Str) (sl : Option (List ShippingLine))
    (h1 : jsTruthyNum (some oid) = true) (h2 : jsTruthyNum (some onum) = true)
    (hpick : isPickupOrder ⟨some oid, some onum, some nm, tags, sl⟩ = true)
    (ds : Downstream) :
    ∃ rest,
      (handleOrdersCreate env
          ⟨some topicOrdersCreate, .ok ⟨some oid, some onum, some nm, tags, sl⟩⟩ ds).2
        = Effect.wait 10000 :: Effect.gqlQuery (getOrderRequest (skuKey nm)) :: rest ∧
      ∀ e ∈ rest, e.isMutate = true := by
  obtain ⟨q, mutOk⟩ := ds
  cases q with
  | err e =>
    obtain ⟨msg, enf⟩ := e
    refine ⟨[], ?_, by intro e' he'; cases he'⟩
    cases enf
    · cases hm : jsIncludes msg kwNotFound || jsIncludes msg kwNull <;>
        simp [handleOrdersCreate, topicOrdersCreate, h1, h2, hpick, hm]
    · simp [handleOrdersCreate, topicOrdersCreate, h1, h2, hpick]
  | ok odOpt =>
    cases odOpt with
    | none =>
      refine ⟨[], ?_, by intro e' he'; cases he'⟩
      simp [handleOrdersCreate, topicOrdersCreate, h1, h2, hpick]
    | some od =>
      obtain ⟨dsId, shOpt⟩ := od
      cases shOpt with
      | none =>
        refine ⟨[], ?_, by intro e' he'; cases he'⟩
        simp [handleOrdersCreate, topicOrdersCreate, h1, h2, hpick]
      | some l =>
        by_cases hlen : l.length = 0
        · refine ⟨[], ?_, by intro e' he'; cases he'⟩
          simp [handleOrdersCreate, topicOrdersCreate, h1, h2, hpick, hlen]
        · refine ⟨(l.filter (needsReassign env.americanaWarehouseId)).map
              (mutEffect env.americanaWarehouseId dsId), ?_, ?_⟩
          · simp [handleOrdersCreate, topicOrdersCreate, h1, h2, hpick, hlen,
              shipmentLoop_eq]
          · intro e' he'
            obtain ⟨sh, _, rfl⟩ := List.mem_map.mp he'
            rfl

theorem c9_single_wait_before_query_witness :
    ∃ rest,
      (handleOrdersCreate envC
          ⟨some topicOrdersCreate,
            .ok ⟨some 1, some 2, some (("#APA100").data), some (("pickup").data), none⟩⟩
          dsIdle).2
        = Effect.wait 10000 ::
            Effect.gqlQuery (getOrderRequest (skuKey (("#APA100").data))) :: rest ∧
      ∀ e ∈ rest, e.isMutate = true :=
  c9_single_wait_before_query envC 1 2 (("#APA100").data) (some (("pickup").data)) none
    (by decide) (by decide) (by decide) dsIdle

/-- C9 counterexample: the grace period is not configurable — with the
deployment configuration carrying a 5000 ms grace-period entry, the
handler still waits the hard-coded 10000 ms and never 5000 ms. -/
theorem c9_wait_ignores_configured_grace :
    envC9.gracePeriodMs = some 5000 ∧
      Effect.wait 10000 ∈ (handleOrdersCreate envC9 reqPickup dsIdle).2 ∧
      Effect.wait 5000 ∉ (handleOrdersCreate envC9 reqPickup dsIdle).2 := by decide

theorem c1_reassign_counts_amended_witness :
    handleOrdersCreate envC
        ⟨some topicOrdersCreate,
          .ok ⟨some 1, some 2, some (("#APA100").data), some (("pickup").data), none⟩⟩
        ⟨QueryOutcome.ok (some ⟨("ds-uuid-1").data, some shipsC1⟩), fun _ => true⟩ =
      (respSuccess ⟨some 1, some 2, some (("#APA100").data), some (("pickup").data), none⟩
          (shipsC1.length - shipsC1.countP (atAmericana envC.americanaWarehouseId)),
        Effect.wait 10000 ::
          Effect.gqlQuery (getOrderRequest (skuKey (("#APA100").data))) ::
          (shipsC1.filter (needsReassign envC.americanaWarehouseId)).map
            (mutEffect envC.americanaWarehouseId (("ds-uuid-1").data))) ∧
      (shipsC1.filter (needsReassign envC.americanaWarehouseId)).length
          = shipsC1.length - shipsC1.countP (atAmericana envC.americanaWarehouseId) ∧
      (respSuccess ⟨some 1, some 2, some (("#APA100").data), some (("pickup").data), none⟩
          (shipsC1.length - shipsC1.countP (atAmericana envC.americanaWarehouseId))).body.lookup
          kSkippedAlreadyCorrect = none :=
  c1_reassign_counts_amended envC 1 2 (("#APA100").data) (some (("pickup").data)) none
    (by decide) (by decide) (by decide) (("ds-uuid-1").data) shipsC1 (by decide)

/-- C1 counterexample: at a concrete downstream order with `N = 2`
shipments of which `M = 1` is already at the Americana warehouse and
every call succeeding, the response of the code carries no
`skippedAlreadyCorrect` field at all (the claim says it reports
`skippedAlreadyCorrect = 1`), while indeed one mutation is issued and
`shipmentsReassigned = 1` is reported. -/
theorem c1_skipped_count_not_reported :
    (handleOrdersCreate envC reqPickup dsC1).1.body.lookup kSkippedAlreadyCorrect = none ∧
      (handleOrdersCreate envC reqPickup dsC1).2.countP Effect.isMutate = 1 ∧
      (handleOrdersCreate envC reqPickup dsC1).1.body.lookup kShipmentsReassigned
        = some (JVal.num 1) := by decide

theorem c3_partial_failure_continues_witness :
    handleOrdersCreate envC
        ⟨some topicOrdersCreate,
          .ok ⟨some 1, some 2, some (("#APA100").data), some (("pickup").data), none⟩⟩
        ⟨QueryOutcome.ok (some ⟨("ds-uuid-1").data, some shipsC3⟩), fun i => i != 8⟩ =
      (respSuccess ⟨some 1, some 2, some (("#APA100").data), some (("pickup").data), none⟩
          ((shipsC3.filter (needsReassign envC.americanaWarehouseId)).countP
            (fun sh => sh.id != 8)),
        Effect.wait 10000 ::
          Effect.gqlQuery (getOrderRequest (skuKey (("#APA100").data))) ::
          (shipsC3.filter (needsReassign envC.americanaWarehouseId)).map
            (mutEffect envC.americanaWarehouseId (("ds-uuid-1").data))) ∧
      (respSuccess ⟨some 1, some 2, some (("#APA100").data), some (("pickup").data), none⟩
          ((shipsC3.filter (needsReassign envC.americanaWarehouseId)).countP
            (fun sh => sh.id != 8))).body.lookup kShipmentsReassigned
        = some (JVal.num ((shipsC3.filter (needsReassign envC.americanaWarehouseId)).countP
            (fun sh => sh.id != 8))) :=
  c3_partial_failure_continues envC 1 2 (("#APA100").data) (some (("pickup").data)) none
    (by decide) (by decide) (by decide) (("ds-uuid-1").data) shipsC3 (by decide)
    (fun i => i != 8)
    ⟨⟨8, some (("genesis-wh-1").data), some (("pending").data)⟩, by decide, by decide⟩
